import Mathlib

/-!
Shallow embedding of the Niimbot B1 label-printer sketch
(`src/src/main.cpp`): the frame codec (`calculateXor`, `createPacket`,
`createCommand`), the command builders, the global state (`printing` flag and
the `printerCommands` FIFO queue), and the `setup`/`loop` control flow.
Bytes are natural numbers; every byte the sketch writes is `< 256`, and the
single place the source narrows a wider value
(`static_cast<uint8_t>(bodySeq.size())`) is modelled by `% 256`.
Transport writes (`writeValue`) and `delay(...)` calls are recorded as an
event trace; BLE scanning/connection mechanics are external collaborators
and are not modelled.
-/

/-- A byte, modelled as a natural number. -/
abbrev Byte := Nat

/-- Source `typedef std::vector<uint8_t> PrinterCommand;` -/
abbrev PrinterCommand := List Byte

namespace PrinterCommands

/-- Source `const uint8_t CALIBRATE_LABEL_GAP = 0x8E;` -/
def CALIBRATE_LABEL_GAP : Byte := 0x8E

/-- Source `const uint8_t HEARTBEAT = 0xDC;` -/
def HEARTBEAT : Byte := 0xDC

/-- Source `const uint8_t GET_PRINT_STATUS = 0xA3;` -/
def GET_PRINT_STATUS : Byte := 0xA3

/-- Source `const uint8_t GET_LABEL_RFID = 0x1A;` -/
def GET_LABEL_RFID : Byte := 0x1A

/-- Source `const uint8_t SET_LABEL_TYPE = 0x23;` -/
def SET_LABEL_TYPE : Byte := 0x23

/-- Source `const uint8_t SET_PRINT_DENSITY = 0x21;` -/
def SET_PRINT_DENSITY : Byte := 0x21

/-- Source `const uint8_t START_PRINT = 0x01;` -/
def START_PRINT : Byte := 0x01

/-- Source `const uint8_t SET_PRINT_DIMENSIONS = 0x13;` -/
def SET_PRINT_DIMENSIONS : Byte := 0x13

/-- Source `const uint8_t END_PAGE_PRINT = 0xE3;` -/
def END_PAGE_PRINT : Byte := 0xE3

/-- Source `const uint8_t END_PRINT = 0xF3;` -/
def END_PRINT : Byte := 0xF3

/-- Source `const uint8_t PRINT_LINE = 0x85;` -/
def PRINT_LINE : Byte := 0x85

/-- Source `const uint8_t PRINT_WHITESPACE = 0x84;` -/
def PRINT_WHITESPACE : Byte := 0x84

end PrinterCommands

/-- Source `calculateXor`: returns the empty sequence for empty input, otherwise a
singleton holding `command[0]` XOR-folded with every subsequent element. -/
def calculateXor (command : PrinterCommand) : PrinterCommand :=
  match command with
  | [] => []
  | first :: rest => [rest.foldl Nat.xor first]

/-- Source `createPacket`: `[0x55, 0x55] ++ bodySeq ++ calculateXor(bodySeq) ++ [0xAA, 0xAA]`. -/
def createPacket (bodySeq : PrinterCommand) : PrinterCommand :=
  [0x55, 0x55] ++ bodySeq ++ calculateXor bodySeq ++ [0xAA, 0xAA]

/-- Source `createCommand`: prepends `[commandCode, (uint8_t)bodySeq.size()]` to the
body and wraps the result with `createPacket`. The `static_cast<uint8_t>` on
the size is `% 256`. -/
def createCommand (commandCode : Byte) (bodySeq : PrinterCommand) : PrinterCommand :=
  createPacket ([commandCode, bodySeq.length % 256] ++ bodySeq)

/-- An observable action at the transport boundary: a `writeValue` of a full
frame to the printer communication characteristic, or a `delay(n)` of `n`
milliseconds. -/
inductive Event where
  | write (frame : PrinterCommand)
  | delayMs (n : Nat)
deriving DecidableEq, Repr

/-- The sketch's global mutable state (`attemptConnectionToPrinter`,
`connectedToPrinter`, `printing`, the `printerCommands` queue — front of the
`std::queue` is the head of the list) together with the trace of transport
writes and delays performed so far. -/
structure EngineState where
  attemptConnectionToPrinter : Bool
  connectedToPrinter : Bool
  printing : Bool
  printerCommands : List PrinterCommand
  trace : List Event
deriving DecidableEq, Repr

/-- The globals as initialised at the top of the sketch: `printing = true`,
empty queue, nothing transmitted yet. -/
def initialState : EngineState :=
  { attemptConnectionToPrinter := false
    connectedToPrinter := false
    printing := true
    printerCommands := []
    trace := [] }

/-- Source `printerCommands.push(c)`: append a frame at the back of the FIFO queue. -/
def pushCommand (s : EngineState) (c : PrinterCommand) : EngineState :=
  { s with printerCommands := s.printerCommands ++ [c] }

/-- Source `sendCalibrateLabelGapSignal`: enqueue the calibrate-label-gap frame. -/
def sendCalibrateLabelGapSignal (s : EngineState) : EngineState :=
  pushCommand s (createCommand PrinterCommands.CALIBRATE_LABEL_GAP [0x01])

/-- Source `sendHeartbeatSignal`: enqueue the heartbeat frame. -/
def sendHeartbeatSignal (s : EngineState) : EngineState :=
  pushCommand s (createCommand PrinterCommands.HEARTBEAT [0x04])

/-- Source `sendGetPrintStatus`: write the get-print-status frame directly to the
characteristic (bypassing the queue), then `delay(100)`. -/
def sendGetPrintStatus (s : EngineState) : EngineState :=
  { s with trace := s.trace ++
      [Event.write (createCommand PrinterCommands.GET_PRINT_STATUS [0x01]), Event.delayMs 100] }

/-- Source `sendGetRFID`: enqueue the get-label-RFID frame. -/
def sendGetRFID (s : EngineState) : EngineState :=
  pushCommand s (createCommand PrinterCommands.GET_LABEL_RFID [0x01])

/-- Source `sendSetLabelType`: enqueue the set-label-type frame. -/
def sendSetLabelType (s : EngineState) : EngineState :=
  pushCommand s (createCommand PrinterCommands.SET_LABEL_TYPE [0x01])

/-- Source `sendSetDensity`: enqueue the set-print-density frame. -/
def sendSetDensity (density : Byte) (s : EngineState) : EngineState :=
  pushCommand s (createCommand PrinterCommands.SET_PRINT_DENSITY [density])

/-- Source `sendStartPrint`: enqueue the start-print frame. -/
def sendStartPrint (s : EngineState) : EngineState :=
  pushCommand s (createCommand PrinterCommands.START_PRINT [0x00, 0x01])

/-- Source `sendPrintDimensions`: enqueue the set-print-dimensions frame. -/
def sendPrintDimensions (width height : Byte) (s : EngineState) : EngineState :=
  pushCommand s (createCommand PrinterCommands.SET_PRINT_DIMENSIONS
    [0x00, width, 0x01, height, 0x00, 0x01])

/-- Source `sendEndPage`: enqueue the end-page-print (end print-data exchange) frame. -/
def sendEndPage (s : EngineState) : EngineState :=
  pushCommand s (createCommand PrinterCommands.END_PAGE_PRINT [0x01])

/-- Source `sendEndPrint`: enqueue the end-print frame, then set `printing = false`. -/
def sendEndPrint (s : EngineState) : EngineState :=
  { pushCommand s (createCommand PrinterCommands.END_PRINT [0x01]) with printing := false }

/-- Source `sendPrintWhitespace`: enqueue a print-whitespace frame. -/
def sendPrintWhitespace (startPosition thickness : Byte) (s : EngineState) : EngineState :=
  pushCommand s (createCommand PrinterCommands.PRINT_WHITESPACE [0x00, startPosition, thickness])

/-- Source `sendPrintLine`: enqueue a print-line frame whose body is the position
sequence `[0x00, startPosition, 0x80, 0x32, 0x00, thickness]` followed by the
row bitmap bytes. -/
def sendPrintLine (startPosition thickness : Byte) (bodySeq : PrinterCommand)
    (s : EngineState) : EngineState :=
  pushCommand s (createCommand PrinterCommands.PRINT_LINE
    ([0x00, startPosition, 0x80, 0x32, 0x00, thickness] ++ bodySeq))

/-- The body of `sendPrint` up to (but not including) the final `sendEndPage()`
and `sendEndPrint()` calls, split out so the state at those two calls can be
named: get-RFID, set-label-type, set-density 3, start-print, dimensions
240 x 128, one whitespace row, and the nineteen hard-coded bitmap rows, in
source order. -/
def sendPrintBody (s0 : EngineState) : EngineState :=
  let s1 := sendGetRFID s0
  let s2 := sendSetLabelType s1
  let s3 := sendSetDensity 3 s2
  let s4 := sendStartPrint s3
  let s5 := sendPrintDimensions 240 128 s4
  let s6 := sendPrintWhitespace 0 32 s5
  let s7 := sendPrintLine 32 1 [0b00000000, 0b00000000, 0b00000000, 0b00000000, 0b00000000, 0b00000000, 0b00000000, 0b00000000, 0b00000000, 0b00000000, 0b00000000, 0b00000000, 0b00000000, 0b00000000, 0b00000000, 0b00000000, 0b00000000, 0b00000000, 0b00000000, 0b00000000, 0b00000000, 0b00000000, 0b00000000, 0b00000000, 0b00000000, 0b00000000, 0b00000000, 0b00000000, 0b00000000, 0b00000000, 0b00000000, 0b00000000, 0b00000000, 0b00000000, 0b00000000, 0b00000000, 0b00000000, 0b00000000, 0b00000000, 0b00000000, 0b00000000, 0b00000000, 0b00000000, 0b00000000, 0b00000000, 0b00000000, 0b00000000, 0b11111111] s6
  let s8 := sendPrintLine 33 1 [0b00000000, 0b11100000, 0b00011111, 0b00000000, 0b00000001, 0b10000000, 0b00000000, 0b11111111, 0b11111111, 0b00000000, 0b11110000, 0b00001111, 0b00000000, 0b00011111, 0b11111000, 0b00000000, 0b11111111, 0b11111111, 0b00000000, 0b11111111, 0b11111111, 0b00000000, 0b11111000, 0b00011111, 0b00000000, 0b00000000, 0b00000000, 0b00000000, 0b00000000, 0b00000000, 0b00000000, 0b00000000, 0b00000000, 0b00000000, 0b00000000, 0b00000000, 0b00000000, 0b00000000, 0b00000000, 0b00000000, 0b00000000, 0b00000000, 0b00000000, 0b00000000, 0b00000000, 0b00000000, 0b00000000, 0b11111111] s7
  let s9 := sendPrintLine 34 1 [0b00000000, 0b11110000, 0b00011111, 0b00000000, 0b00000011, 0b11000000, 0b00000000, 0b11111111, 0b11111111, 0b00000000, 0b11110000, 0b00001111, 0b00000000, 0b01111111, 0b11111110, 0b00000000, 0b11111111, 0b11111111, 0b00000000, 0b11111111, 0b11111111, 0b00000000, 0b11111000, 0b00011111, 0b00000000, 0b00000000, 0b00000000, 0b00000000, 0b00000000, 0b00000000, 0b00000000, 0b00000000, 0b00000000, 0b00000000, 0b00000000, 0b00000000, 0b00000000, 0b00000000, 0b00000000, 0b00000000, 0b00000000, 0b00000000, 0b00000000, 0b00000000, 0b00000000, 0b00000000, 0b00000000, 0b11111111] s8
  let s10 := sendPrintLine 35 1 [0b00000000, 0b11111000, 0b00011111, 0b00000000, 0b00001111, 0b11110000, 0b00000000, 0b11111111, 0b11111111, 0b00000000, 0b11110000, 0b00001111, 0b00000000, 0b11111111, 0b11111111, 0b00000000, 0b11111111, 0b11111111, 0b00000000, 0b11111111, 0b11111111, 0b00000000, 0b11111000, 0b00011111, 0b00000000, 0b00000000, 0b00000000, 0b00000000, 0b00000000, 0b00000000, 0b00000000, 0b00000000, 0b00000000, 0b00000000, 0b00000000, 0b00000000, 0b00000000, 0b00000000, 0b00000000, 0b00000000, 0b00000000, 0b00000000, 0b00000000, 0b00000000, 0b00000000, 0b00000000, 0b00000000, 0b11111111] s9
  let s11 := sendPrintLine 36 1 [0b00000000, 0b11111100, 0b00011111, 0b00000000, 0b00001100, 0b00110000, 0b00000000, 0b00000111, 0b11100000, 0b00000000, 0b11110000, 0b00001111, 0b00000000, 0b11111000, 0b11111110, 0b00000000, 0b00000111, 0b11100000, 0b00000000, 0b11111111, 0b11111111, 0b00000000, 0b11111000, 0b00111110, 0b00000000, 0b00000000, 0b00000000, 0b00000000, 0b00000000, 0b00000000, 0b00000000, 0b00000000, 0b00000000, 0b00000000, 0b00000000, 0b00000000, 0b00000000, 0b00000000, 0b00000000, 0b00000000, 0b00000000, 0b00000000, 0b00000000, 0b00000000, 0b00000000, 0b00000000, 0b00000000, 0b11111111] s10
  let s12 := sendPrintLine 37 1 [0b00000000, 0b11111110, 0b00011111, 0b00000000, 0b00011100, 0b00111000, 0b00000000, 0b00000111, 0b11100000, 0b00000000, 0b11110000, 0b00001111, 0b00000000, 0b11111000, 0b00111100, 0b00000000, 0b00000111, 0b11100000, 0b00000000, 0b11110000, 0b00000000, 0b00000000, 0b11111000, 0b00111100, 0b00000000, 0b00000000, 0b00000000, 0b00000000, 0b00000000, 0b00000000, 0b00000000, 0b00000000, 0b00000000, 0b00000000, 0b00000000, 0b00000000, 0b00000000, 0b00000000, 0b00000000, 0b00000000, 0b00000000, 0b00000000, 0b00000000, 0b00000000, 0b00000000, 0b00000000, 0b00000000, 0b11111111] s11
  let s13 := sendPrintLine 38 1 [0b00000000, 0b11111111, 0b00011111, 0b00000000, 0b00111000, 0b00011100, 0b00000000, 0b00000111, 0b11100000, 0b00000000, 0b11110000, 0b00001111, 0b00000000, 0b11111000, 0b00111100, 0b00000000, 0b00000111, 0b11100000, 0b00000000, 0b11110000, 0b00000000, 0b00000000, 0b11111000, 0b00111100, 0b00000000, 0b00000000, 0b00000000, 0b00000000, 0b00000000, 0b00000000, 0b00000000, 0b00000000, 0b00000000, 0b00000000, 0b00000000, 0b00000000, 0b00000000, 0b00000000, 0b00000000, 0b00000000, 0b00000000, 0b00000000, 0b00000000, 0b00000000, 0b00000000, 0b00000000, 0b00000000, 0b11111111] s12
  let s14 := sendPrintLine 39 1 [0b00000000, 0b11111111, 0b10011111, 0b00000000, 0b00111000, 0b00011100, 0b00000000, 0b00000111, 0b11100000, 0b00000000, 0b11110000, 0b00001111, 0b00000000, 0b11111000, 0b01111100, 0b00000000, 0b00000111, 0b11100000, 0b00000000, 0b11110000, 0b00000000, 0b00000000, 0b11111000, 0b01111100, 0b00000000, 0b00000000, 0b00000000, 0b00000000, 0b00000000, 0b00000000, 0b00000000, 0b00000000, 0b00000000, 0b00000000, 0b00000000, 0b00000000, 0b00000000, 0b00000000, 0b00000000, 0b00000000, 0b00000000, 0b00000000, 0b00000000, 0b00000000, 0b00000000, 0b00000000, 0b00000000, 0b11111111] s13
  let s15 := sendPrintLine 40 1 [0b00000000, 0b11111011, 0b11111111, 0b00000000, 0b00111001, 0b10011100, 0b00000000, 0b00000111, 0b11100000, 0b00000000, 0b11110000, 0b00001111, 0b00000000, 0b11111111, 0b11110000, 0b00000000, 0b00000111, 0b11100000, 0b00000000, 0b11111111, 0b11100000, 0b00000000, 0b11111111, 0b11110000, 0b00000000, 0b00000000, 0b00000000, 0b00000000, 0b00000000, 0b00000000, 0b00000000, 0b00000000, 0b00000000, 0b00000000, 0b00000000, 0b00000000, 0b00000000, 0b00000000, 0b00000000, 0b00000000, 0b00000000, 0b00000000, 0b00000000, 0b00000000, 0b00000000, 0b00000000, 0b00000000, 0b11111111] s14
  let s16 := sendPrintLine 41 1 [0b00000000, 0b11111001, 0b11111111, 0b00000000, 0b00111111, 0b11111100, 0b00000000, 0b00000111, 0b11100000, 0b00000000, 0b11110000, 0b00001111, 0b00000000, 0b11111111, 0b11110000, 0b00000000, 0b00000111, 0b11100000, 0b00000000, 0b11111111, 0b11100000, 0b00000000, 0b11111111, 0b11110000, 0b00000000, 0b00000000, 0b00000000, 0b00000000, 0b00000000, 0b00000000, 0b00000000, 0b00000000, 0b00000000, 0b00000000, 0b00000000, 0b00000000, 0b00000000, 0b00000000, 0b00000000, 0b00000000, 0b00000000, 0b00000000, 0b00000000, 0b00000000, 0b00000000, 0b00000000, 0b00000000, 0b11111111] s15
  let s17 := sendPrintLine 42 1 [0b00000000, 0b11111000, 0b11111111, 0b00000000, 0b01111111, 0b11111110, 0b00000000, 0b00000111, 0b11100000, 0b00000000, 0b11110000, 0b00001111, 0b00000000, 0b11111111, 0b11110000, 0b00000000, 0b00000111, 0b11100000, 0b00000000, 0b11111111, 0b11100000, 0b00000000, 0b11111111, 0b11110000, 0b00000000, 0b00000000, 0b00000000, 0b00000000, 0b00000000, 0b00000000, 0b00000000, 0b00000000, 0b00000000, 0b00000000, 0b00000000, 0b00000000, 0b00000000, 0b00000000, 0b00000000, 0b00000000, 0b00000000, 0b00000000, 0b00000000, 0b00000000, 0b00000000, 0b00000000, 0b00000000, 0b11111111] s16
  let s18 := sendPrintLine 43 1 [0b00000000, 0b11111000, 0b01111111, 0b00000000, 0b11111111, 0b11111111, 0b00000000, 0b00000111, 0b11100000, 0b00000000, 0b11110000, 0b00001111, 0b00000000, 0b11111000, 0b01111100, 0b00000000, 0b00000111, 0b11100000, 0b00000000, 0b11111111, 0b11100000, 0b00000000, 0b11111000, 0b01111100, 0b00000000, 0b00000000, 0b00000000, 0b00000000, 0b00000000, 0b00000000, 0b00000000, 0b00000000, 0b00000000, 0b00000000, 0b00000000, 0b00000000, 0b00000000, 0b00000000, 0b00000000, 0b00000000, 0b00000000, 0b00000000, 0b00000000, 0b00000000, 0b00000000, 0b00000000, 0b00000000, 0b11111111] s17
  let s19 := sendPrintLine 44 1 [0b00000000, 0b11111000, 0b00111111, 0b00000000, 0b11111100, 0b00111111, 0b00000000, 0b00000111, 0b11100000, 0b00000000, 0b11110000, 0b00001111, 0b00000000, 0b11111000, 0b00111100, 0b00000000, 0b00000111, 0b11100000, 0b00000000, 0b11110000, 0b00000000, 0b00000000, 0b11111000, 0b00111100, 0b00000000, 0b00000000, 0b00000000, 0b00000000, 0b00000000, 0b00000000, 0b00000000, 0b00000000, 0b00000000, 0b00000000, 0b00000000, 0b00000000, 0b00000000, 0b00000000, 0b00000000, 0b00000000, 0b00000000, 0b00000000, 0b00000000, 0b00000000, 0b00000000, 0b00000000, 0b00000000, 0b11111111] s18
  let s20 := sendPrintLine 45 1 [0b00000000, 0b11111000, 0b00011111, 0b00000000, 0b11111000, 0b00011111, 0b00000000, 0b00000111, 0b11100000, 0b00000000, 0b11110000, 0b00001111, 0b00000000, 0b11111000, 0b00011110, 0b00000000, 0b00000111, 0b11100000, 0b00000000, 0b11110000, 0b00000000, 0b00000000, 0b11111000, 0b00011110, 0b00000000, 0b00000000, 0b00000000, 0b00000000, 0b00000000, 0b00000000, 0b00000000, 0b00000000, 0b00000000, 0b00000000, 0b00000000, 0b00000000, 0b00000000, 0b00000000, 0b00000000, 0b00000000, 0b00000000, 0b00000000, 0b00000000, 0b00000000, 0b00000000, 0b00000000, 0b00000000, 0b11111111] s19
  let s21 := sendPrintLine 46 1 [0b00000000, 0b11111000, 0b00011111, 0b00000000, 0b11111000, 0b00011111, 0b00000000, 0b00000111, 0b11100000, 0b00000000, 0b11111000, 0b00011111, 0b00000000, 0b11111000, 0b00011111, 0b00000000, 0b00000111, 0b11100000, 0b00000000, 0b11110000, 0b00000000, 0b00000000, 0b11111000, 0b00011111, 0b00000000, 0b00000000, 0b00000000, 0b00000000, 0b00000000, 0b00000000, 0b00000000, 0b00000000, 0b00000000, 0b00000000, 0b00000000, 0b00000000, 0b00000000, 0b00000000, 0b00000000, 0b00000000, 0b00000000, 0b00000000, 0b00000000, 0b00000000, 0b00000000, 0b00000000, 0b00000000, 0b11111111] s20
  let s22 := sendPrintLine 47 1 [0b00000000, 0b11111000, 0b00011111, 0b00000000, 0b11111000, 0b00011111, 0b00000000, 0b00000111, 0b11100000, 0b00000000, 0b11111100, 0b00111111, 0b00000000, 0b11111000, 0b00011111, 0b00000000, 0b00000111, 0b11100000, 0b00000000, 0b11110000, 0b00000000, 0b00000000, 0b11111000, 0b00011111, 0b00000000, 0b00000000, 0b00000000, 0b00000000, 0b00000000, 0b00000000, 0b00000000, 0b00000000, 0b00000000, 0b00000000, 0b00000000, 0b00000000, 0b00000000, 0b00000000, 0b00000000, 0b00000000, 0b00000000, 0b00000000, 0b00000000, 0b00000000, 0b00000000, 0b00000000, 0b00000000, 0b11111111] s21
  let s23 := sendPrintLine 48 1 [0b00000000, 0b11111000, 0b00011111, 0b00000000, 0b11111000, 0b00011111, 0b00000000, 0b00000111, 0b11100000, 0b00000000, 0b11111111, 0b11111111, 0b00000000, 0b11111000, 0b00011111, 0b00000000, 0b00000111, 0b11100000, 0b00000000, 0b11111111, 0b11111111, 0b00000000, 0b11111000, 0b00011111, 0b00000000, 0b00000000, 0b00000000, 0b00000000, 0b00000000, 0b00000000, 0b00000000, 0b00000000, 0b00000000, 0b00000000, 0b00000000, 0b00000000, 0b00000000, 0b00000000, 0b00000000, 0b00000000, 0b00000000, 0b00000000, 0b00000000, 0b00000000, 0b00000000, 0b00000000, 0b00000000, 0b11111111] s22
  let s24 := sendPrintLine 49 1 [0b00000000, 0b11111000, 0b00011111, 0b00000000, 0b11111000, 0b00011111, 0b00000000, 0b00000111, 0b11100000, 0b00000000, 0b11111111, 0b11111111, 0b00000000, 0b11111000, 0b00011111, 0b00000000, 0b00000111, 0b11100000, 0b00000000, 0b11111111, 0b11111111, 0b00000000, 0b11111000, 0b00011111, 0b00000000, 0b00000000, 0b00000000, 0b00000000, 0b00000000, 0b00000000, 0b00000000, 0b00000000, 0b00000000, 0b00000000, 0b00000000, 0b00000000, 0b00000000, 0b00000000, 0b00000000, 0b00000000, 0b00000000, 0b00000000, 0b00000000, 0b00000000, 0b00000000, 0b00000000, 0b00000000, 0b11111111] s23
  let s25 := sendPrintLine 50 1 [0b00000000, 0b11111000, 0b00011111, 0b00000000, 0b11111000, 0b00011111, 0b00000000, 0b00000111, 0b11100000, 0b00000000, 0b11111111, 0b11111111, 0b00000000, 0b11111000, 0b00011111, 0b00000000, 0b00000111, 0b11100000, 0b00000000, 0b11111111, 0b11111111, 0b00000000, 0b11111000, 0b00011111, 0b00000000, 0b00000000, 0b00000000, 0b00000000, 0b00000000, 0b00000000, 0b00000000, 0b00000000, 0b00000000, 0b00000000, 0b00000000, 0b00000000, 0b00000000, 0b00000000, 0b00000000, 0b00000000, 0b00000000, 0b00000000, 0b00000000, 0b00000000, 0b00000000, 0b00000000, 0b00000000, 0b11111111] s24
  s25

/-- Source `sendPrint`: the full print job, ending with `sendEndPage()` and
`sendEndPrint()`. -/
def sendPrint (s : EngineState) : EngineState :=
  sendEndPrint (sendEndPage (sendPrintBody s))

/-- Source `processNextCommand`: if the queue is empty, do nothing; otherwise write
the front frame to the characteristic, `delay(500)`, and pop it. -/
def processNextCommand (s : EngineState) : EngineState :=
  match s.printerCommands with
  | [] => s
  | command :: rest =>
    { s with trace := s.trace ++ [Event.write command, Event.delayMs 500]
             printerCommands := rest }

/-- The tail of `setup()` once the BLE scan and `connectToPrinter` have
succeeded (connection mechanics are external): `sendHeartbeatSignal()`,
`sendPrint()`, `sendGetPrintStatus()`. -/
def setupCommands (s : EngineState) : EngineState :=
  sendGetPrintStatus (sendPrint (sendHeartbeatSignal s))

/-- The engine state right after `setup()` completes. -/
def setupState : EngineState :=
  setupCommands initialState

/-- One iteration of `loop()`: poll get-print-status while `printing` is
still set, then pump one queue entry. -/
def loopStep (s : EngineState) : EngineState :=
  processNextCommand (if s.printing then sendGetPrintStatus s else s)

/-- Source `n` iterations of `loop()`. -/
def runLoop : Nat → EngineState → EngineState
  | 0, s => s
  | n + 1, s => runLoop n (loopStep s)

/-- XOR with zero on the left is the identity (`Nat.xor` spelling). -/
theorem zero_xor_eq (n : Nat) : Nat.xor 0 n = n := Nat.zero_xor n

/-- C1: for every opcode and every body of at most 255 bytes, the encoded
frame is literally `[0x55, 0x55, opcode, len(body)] ++ body ++` the XOR
checksum of opcode, length and body bytes `++ [0xAA, 0xAA]`. -/
theorem createCommand_frame_shape (opcode : Byte) (body : PrinterCommand)
    (h : body.length ≤ 255) :
    createCommand opcode body =
      [0x55, 0x55, opcode, body.length] ++ body ++
        [(opcode :: body.length :: body).foldl Nat.xor 0] ++ [0xAA, 0xAA] := by
  have hm : body.length % 256 = body.length :=
    Nat.mod_eq_of_lt (lt_of_le_of_lt h (by norm_num))
  simp [createCommand, createPacket, calculateXor, hm, zero_xor_eq]

/-- Witness for C1 at opcode `0xA3`, body `[0x01]`. -/
theorem createCommand_frame_shape_witness :
    ([0x01] : PrinterCommand).length ≤ 255 ∧
      createCommand 0xA3 [0x01] = [0x55, 0x55, 0xA3, 0x01, 0x01, 0xA3, 0xAA, 0xAA] :=
  ⟨by decide, by simpa using createCommand_frame_shape 0xA3 [0x01] (by decide)⟩

/-- C2: on every non-empty byte sequence the checksum function returns the
singleton XOR-fold of all the bytes, and in particular
`calculateXor [0x01, 0x02, 0x03] = [0x00]`. -/
theorem calculateXor_foldl (P : PrinterCommand) (h : P ≠ []) :
    calculateXor P = [P.foldl Nat.xor 0] ∧ calculateXor [0x01, 0x02, 0x03] = [0x00] := by
  refine ⟨?_, by decide⟩
  match P with
  | [] => exact absurd rfl h
  | first :: rest => simp [calculateXor, zero_xor_eq]

/-- Witness for C2 at `P = [0x01, 0x02, 0x03]`. -/
theorem calculateXor_foldl_witness :
    ([0x01, 0x02, 0x03] : PrinterCommand) ≠ [] ∧
      calculateXor [0x01, 0x02, 0x03] =
        [([0x01, 0x02, 0x03] : PrinterCommand).foldl Nat.xor 0] :=
  ⟨by decide, (calculateXor_foldl [0x01, 0x02, 0x03] (by decide)).1⟩

/-- C5 counterexample: the encoded frame for opcode `0xA3`, body `[0x01]` is
not `55 55 A3 01 01 A2 AA AA` — the checksum byte is `0xA3`, not `0xA2`. -/
theorem getPrintStatus_frame_not_A2 :
    createCommand 0xA3 [0x01] ≠ [0x55, 0x55, 0xA3, 0x01, 0x01, 0xA2, 0xAA, 0xAA] := by
  decide

/-- C5 amended: encoding opcode `0xA3` with body `[0x01]` yields exactly
`55 55 A3 01 01 A3 AA AA` (checksum `0xA3 ^ 0x01 ^ 0x01 = 0xA3`). -/
theorem getPrintStatus_frame_golden :
    createCommand 0xA3 [0x01] = [0x55, 0x55, 0xA3, 0x01, 0x01, 0xA3, 0xAA, 0xAA] := by
  decide

set_option maxRecDepth 4000 in
/-- C4 counterexample: a body of length 256 is not rejected — `createCommand`
still produces a complete 263-byte frame (with length byte `0x00`). -/
theorem oversizeBody_not_rejected :
    createCommand 0x00 (List.replicate 256 0x00) =
        [0x55, 0x55, 0x00, 0x00] ++ List.replicate 256 0x00 ++ [0x00, 0xAA, 0xAA] ∧
      (createCommand 0x00 (List.replicate 256 0x00)).length = 263 := by
  constructor <;> decide

/-- C4 amended: a body of length exactly 255 encodes successfully (length
byte 255); a body of length 256 is not rejected with any framing error —
`createCommand` still emits a frame, whose length byte is 0. -/
theorem boundary_255_and_256 :
    (∀ (op : Byte) (body : PrinterCommand), body.length = 255 →
        createCommand op body =
          [0x55, 0x55, op, 255] ++ body ++
            [(op :: 255 :: body).foldl Nat.xor 0] ++ [0xAA, 0xAA]) ∧
      ∀ (op : Byte) (body : PrinterCommand), body.length = 256 →
        createCommand op body =
          [0x55, 0x55, op, 0] ++ body ++
            [(op :: 0 :: body).foldl Nat.xor 0] ++ [0xAA, 0xAA] := by
  constructor <;> intro op body h <;>
    simp [createCommand, createPacket, calculateXor, h, zero_xor_eq]

set_option maxRecDepth 4000 in
/-- Witness for C4 amended at bodies of length 255 and 256 filled with `0x01`. -/
theorem boundary_255_and_256_witness :
    (List.replicate 255 (0x01 : Byte)).length = 255 ∧
      createCommand 0xA3 (List.replicate 255 0x01) =
        [0x55, 0x55, 0xA3, 255] ++ List.replicate 255 0x01 ++
          [((0xA3 : Byte) :: 255 :: List.replicate 255 0x01).foldl Nat.xor 0] ++ [0xAA, 0xAA] ∧
      createCommand 0xA3 (List.replicate 256 0x01) =
        [0x55, 0x55, 0xA3, 0] ++ List.replicate 256 0x01 ++
          [((0xA3 : Byte) :: 0 :: List.replicate 256 0x01).foldl Nat.xor 0] ++ [0xAA, 0xAA] :=
  ⟨by decide, boundary_255_and_256.1 0xA3 _ (by decide), boundary_255_and_256.2 0xA3 _ (by decide)⟩

/-- C9: for every body of 256 bytes or more, `createCommand` still emits a
frame; its length byte is `len(body) % 256` — strictly smaller than the real
length — no error is signalled, and the body bytes are included in full. -/
theorem createCommand_oversize_narrows (op : Byte) (body : PrinterCommand)
    (h : 256 ≤ body.length) :
    createCommand op body =
        [0x55, 0x55, op, body.length % 256] ++ body ++
          [(op :: body.length % 256 :: body).foldl Nat.xor 0] ++ [0xAA, 0xAA] ∧
      body.length % 256 < body.length := by
  refine ⟨?_, lt_of_lt_of_le (Nat.mod_lt _ (by norm_num)) h⟩
  simp [createCommand, createPacket, calculateXor, zero_xor_eq]

set_option maxRecDepth 4000 in
/-- Witness for C9 at a 256-byte body filled with `0x02`. -/
theorem createCommand_oversize_narrows_witness :
    256 ≤ (List.replicate 256 (0x02 : Byte)).length ∧
      createCommand 0x85 (List.replicate 256 0x02) =
          [0x55, 0x55, 0x85, (List.replicate 256 (0x02 : Byte)).length % 256] ++
            List.replicate 256 0x02 ++
            [((0x85 : Byte) :: (List.replicate 256 (0x02 : Byte)).length % 256 ::
                List.replicate 256 0x02).foldl Nat.xor 0] ++ [0xAA, 0xAA] ∧
        (List.replicate 256 (0x02 : Byte)).length % 256 <
          (List.replicate 256 (0x02 : Byte)).length :=
  ⟨by decide, createCommand_oversize_narrows 0x85 _ (by decide)⟩

/-- C3: every command builder uses exactly the opcode and body shape of the
command catalogue. For constant bodies the resulting frame is given literally
(checksum included); for parameterised bodies the frame is `createCommand` of
the literal opcode and the exact body shape. -/
theorem builders_use_catalogue :
    ∀ (s : EngineState) (density width height startPosition thickness : Byte)
      (bitmap : PrinterCommand),
      sendCalibrateLabelGapSignal s =
        { s with printerCommands :=
            s.printerCommands ++ [[0x55, 0x55, 0x8E, 0x01, 0x01, 0x8E, 0xAA, 0xAA]] } ∧
      sendHeartbeatSignal s =
        { s with printerCommands :=
            s.printerCommands ++ [[0x55, 0x55, 0xDC, 0x01, 0x04, 0xD9, 0xAA, 0xAA]] } ∧
      sendGetPrintStatus s =
        { s with trace := s.trace ++
            [Event.write [0x55, 0x55, 0xA3, 0x01, 0x01, 0xA3, 0xAA, 0xAA], Event.delayMs 100] } ∧
      sendGetRFID s =
        { s with printerCommands :=
            s.printerCommands ++ [[0x55, 0x55, 0x1A, 0x01, 0x01, 0x1A, 0xAA, 0xAA]] } ∧
      sendSetLabelType s =
        { s with printerCommands :=
            s.printerCommands ++ [[0x55, 0x55, 0x23, 0x01, 0x01, 0x23, 0xAA, 0xAA]] } ∧
      sendSetDensity density s =
        { s with printerCommands :=
            s.printerCommands ++ [createCommand 0x21 [density]] } ∧
      sendStartPrint s =
        { s with printerCommands :=
            s.printerCommands ++ [[0x55, 0x55, 0x01, 0x02, 0x00, 0x01, 0x02, 0xAA, 0xAA]] } ∧
      sendPrintDimensions width height s =
        { s with printerCommands :=
            s.printerCommands ++
              [createCommand 0x13 [0x00, width, 0x01, height, 0x00, 0x01]] } ∧
      sendEndPage s =
        { s with printerCommands :=
            s.printerCommands ++ [[0x55, 0x55, 0xE3, 0x01, 0x01, 0xE3, 0xAA, 0xAA]] } ∧
      sendEndPrint s =
        { s with
            printerCommands := s.printerCommands ++ [[0x55, 0x55, 0xF3, 0x01, 0x01, 0xF3, 0xAA, 0xAA]]
            printing := false } ∧
      sendPrintWhitespace startPosition thickness s =
        { s with printerCommands :=
            s.printerCommands ++ [createCommand 0x84 [0x00, startPosition, thickness]] } ∧
      sendPrintLine startPosition thickness bitmap s =
        { s with printerCommands :=
            s.printerCommands ++
              [createCommand 0x85
                ([0x00, startPosition, 0x80, 0x32, 0x00, thickness] ++ bitmap)] } :=
  fun s density width height startPosition thickness bitmap =>
    ⟨rfl, rfl, rfl, rfl, rfl, rfl, rfl, rfl, rfl, rfl, rfl, rfl⟩

/-- C6: the transmission queue is strict FIFO — pushing frames `c1`, `c2`,
`c3` onto an empty queue and pumping `processNextCommand` three times writes
`c1`, then `c2`, then `c3` to the transport and leaves the queue empty. -/
theorem queue_fifo (s : EngineState) (c1 c2 c3 : PrinterCommand)
    (h : s.printerCommands = []) :
    (processNextCommand (pushCommand (pushCommand (pushCommand s c1) c2) c3)).trace
        = s.trace ++ [Event.write c1, Event.delayMs 500] ∧
      (processNextCommand (processNextCommand
          (pushCommand (pushCommand (pushCommand s c1) c2) c3))).trace
        = s.trace ++ [Event.write c1, Event.delayMs 500, Event.write c2, Event.delayMs 500] ∧
      (processNextCommand (processNextCommand (processNextCommand
          (pushCommand (pushCommand (pushCommand s c1) c2) c3)))).trace
        = s.trace ++ [Event.write c1, Event.delayMs 500, Event.write c2, Event.delayMs 500,
            Event.write c3, Event.delayMs 500] ∧
      (processNextCommand (processNextCommand (processNextCommand
          (pushCommand (pushCommand (pushCommand s c1) c2) c3)))).printerCommands = [] := by
  refine ⟨?_, ?_, ?_, ?_⟩ <;> simp [processNextCommand, pushCommand, h]

/-- Witness for C6 at the initial state with frames `[0x01]`, `[0x02]`, `[0x03]`. -/
theorem queue_fifo_witness :
    initialState.printerCommands = [] ∧
      (processNextCommand (processNextCommand (processNextCommand
          (pushCommand (pushCommand (pushCommand initialState [0x01]) [0x02]) [0x03])))).trace
        = initialState.trace ++ [Event.write [0x01], Event.delayMs 500,
            Event.write [0x02], Event.delayMs 500, Event.write [0x03], Event.delayMs 500] ∧
      (processNextCommand (processNextCommand (processNextCommand
          (pushCommand (pushCommand (pushCommand initialState [0x01]) [0x02]) [0x03])))).printerCommands
        = [] :=
  ⟨rfl, (queue_fifo initialState [0x01] [0x02] [0x03] rfl).2.2.1,
    (queue_fifo initialState [0x01] [0x02] [0x03] rfl).2.2.2⟩

set_option maxRecDepth 10000 in
/-- C7 counterexample: `sendSetLabelType` and `sendSetDensity` write nothing
to the transport — they append their frames to the transmission queue — and
after `setup()` the only frame that went out immediately is get-print-status;
set-label-type is still pending in the queue. -/
theorem configCommands_are_queued :
    (sendSetLabelType initialState).trace = [] ∧
      (sendSetLabelType initialState).printerCommands
        = [[0x55, 0x55, 0x23, 0x01, 0x01, 0x23, 0xAA, 0xAA]] ∧
      (sendSetDensity 3 initialState).trace = [] ∧
      (sendSetDensity 3 initialState).printerCommands
        = [[0x55, 0x55, 0x21, 0x01, 0x03, 0x23, 0xAA, 0xAA]] ∧
      setupState.trace
        = [Event.write [0x55, 0x55, 0xA3, 0x01, 0x01, 0xA3, 0xAA, 0xAA], Event.delayMs 100] ∧
      [0x55, 0x55, 0x23, 0x01, 0x01, 0x23, 0xAA, 0xAA] ∈ setupState.printerCommands := by
  refine ⟨rfl, rfl, rfl, rfl, by decide, by decide⟩

set_option maxRecDepth 10000 in
/-- C7 amended: during setup, set-label-type and set-density are enqueued on
the transmission queue in that order (right after heartbeat and get-RFID),
each exactly once; neither touches the transport when issued, and
get-print-status is the only one of the three sent immediately — its write is
the whole transport trace at the end of `setup()`. -/
theorem config_order_and_queueing :
    setupState.trace
        = [Event.write [0x55, 0x55, 0xA3, 0x01, 0x01, 0xA3, 0xAA, 0xAA], Event.delayMs 100] ∧
      setupState.printerCommands.take 4
        = [[0x55, 0x55, 0xDC, 0x01, 0x04, 0xD9, 0xAA, 0xAA],
           [0x55, 0x55, 0x1A, 0x01, 0x01, 0x1A, 0xAA, 0xAA],
           [0x55, 0x55, 0x23, 0x01, 0x01, 0x23, 0xAA, 0xAA],
           [0x55, 0x55, 0x21, 0x01, 0x03, 0x23, 0xAA, 0xAA]] ∧
      setupState.printerCommands.count [0x55, 0x55, 0x23, 0x01, 0x01, 0x23, 0xAA, 0xAA] = 1 ∧
      setupState.printerCommands.count [0x55, 0x55, 0x21, 0x01, 0x03, 0x23, 0xAA, 0xAA] = 1 ∧
      (∀ s : EngineState, (sendSetLabelType s).trace = s.trace) ∧
      ∀ (s : EngineState) (d : Byte), (sendSetDensity d s).trace = s.trace := by
  refine ⟨by decide, by decide, by decide, by decide, fun s => rfl, fun s d => rfl⟩

set_option maxRecDepth 10000 in
/-- C8 counterexample: the end-page (end print-data exchange) frame is issued
while the transmission queue is anything but empty — 26 frames are pending
when `sendEndPage()` runs, and when the end-page frame is finally transmitted
the queue still holds the end-print frame. -/
theorem endPage_issued_with_nonempty_queue :
    (sendPrintBody (sendHeartbeatSignal initialState)).printerCommands.length = 26 ∧
      (sendEndPage (sendPrintBody (sendHeartbeatSignal initialState))).printerCommands.getLast?
        = some [0x55, 0x55, 0xE3, 0x01, 0x01, 0xE3, 0xAA, 0xAA] ∧
      (runLoop 26 setupState).printerCommands
        = [[0x55, 0x55, 0xE3, 0x01, 0x01, 0xE3, 0xAA, 0xAA],
           [0x55, 0x55, 0xF3, 0x01, 0x01, 0xF3, 0xAA, 0xAA]] := by
  refine ⟨by decide, by decide, by decide⟩

set_option maxRecDepth 10000 in
/-- C8 amended: end-page and end-print are enqueued unconditionally at the
end of `sendPrint()` (not when the queue reports empty); draining the
28-entry queue transmits each of them exactly once, end-page immediately
before end-print as the final two writes, separated by the uniform 500 ms
pacing delay, and afterwards the queue is empty and a further loop iteration
changes nothing. -/
theorem drain_sends_endPage_endPrint_once :
    (runLoop 28 setupState).printerCommands = [] ∧
      (runLoop 28 setupState).trace.count
          (Event.write [0x55, 0x55, 0xE3, 0x01, 0x01, 0xE3, 0xAA, 0xAA]) = 1 ∧
      (runLoop 28 setupState).trace.count
          (Event.write [0x55, 0x55, 0xF3, 0x01, 0x01, 0xF3, 0xAA, 0xAA]) = 1 ∧
      (runLoop 28 setupState).trace.length = 58 ∧
      (runLoop 28 setupState).trace.drop 54
        = [Event.write [0x55, 0x55, 0xE3, 0x01, 0x01, 0xE3, 0xAA, 0xAA], Event.delayMs 500,
           Event.write [0x55, 0x55, 0xF3, 0x01, 0x01, 0xF3, 0xAA, 0xAA], Event.delayMs 500] ∧
      loopStep (runLoop 28 setupState) = runLoop 28 setupState := by
  refine ⟨by decide, by decide, by decide, by decide, by decide, by decide⟩

set_option maxRecDepth 10000 in
/-- C10: `sendEndPrint` appends exactly the end-print frame to the queue and
clears the `printing` flag, touching nothing else; in `setup()` it runs
before any queued frame has been transmitted (the trace at that point is
empty), after `setup()` the flag is already false while all 28 job frames
are still pending, and with the flag false the loop's get-print-status poll
disappears — an iteration is just `processNextCommand`. -/
theorem sendEndPrint_effects :
    (∀ s : EngineState, sendEndPrint s =
        { s with
            printerCommands := s.printerCommands ++ [[0x55, 0x55, 0xF3, 0x01, 0x01, 0xF3, 0xAA, 0xAA]]
            printing := false }) ∧
      (sendEndPage (sendPrintBody (sendHeartbeatSignal initialState))).trace = [] ∧
      setupState.printing = false ∧
      setupState.printerCommands.length = 28 ∧
      ∀ s : EngineState, s.printing = false → loopStep s = processNextCommand s := by
  refine ⟨fun s => rfl, by decide, by decide, by decide, fun s h => by simp [loopStep, h]⟩

/-- Witness for C10 at the post-`setup()` state. -/
theorem sendEndPrint_effects_witness :
    setupState.printing = false ∧ loopStep setupState = processNextCommand setupState :=
  ⟨sendEndPrint_effects.2.2.1,
    sendEndPrint_effects.2.2.2.2 setupState sendEndPrint_effects.2.2.1⟩
